import Mathlib

/-!
Shallow embedding of `src/pages/user/login.vue` (TypeWords): a Vue
authentication page with three modes (login / register / forgot-password),
a phone-verification-code dispatcher, and a simulated WeChat QR-login
panel driven by two timers (a 2-second poll interval and a 5-minute
expiry timeout).

External collaborators (validation utilities, the auth store, the `apis`
client, the toast service, configuration) are black boxes for this
component; they are modelled as oracle parameters (validator functions,
`Outcome` values for awaited calls, a `phoneValid` flag standing for the
configured phone regex test).  Side effects performed by the component
(toasts, console logging, validator invocations, auth-store / API calls)
are recorded in an explicit effect trace.  Timers are modelled by an
allocator: `setInterval` / `setTimeout` return fresh numeric ids which are
tracked, together with their configured duration, in lists of currently
pending timers, so that duplicate or leaked timers are observable.
-/

namespace LoginPage

/-- The page mode: which of the three forms renders (`currentMode`). -/
inductive Mode
  | login
  | register
  | forgot
deriving DecidableEq, Repr

/-- The login sub-type tab (`loginType`): code login or password login. -/
inductive LoginType
  | code
  | password
deriving DecidableEq, Repr

/-- The purpose tag passed to the send-code API. -/
inductive CodeType
  | login
  | register
  | reset_password
deriving DecidableEq, Repr

/-- Which external validator a handler delegates to. -/
inductive FormKind
  | vLogin
  | vRegister
  | vReset
deriving DecidableEq, Repr

/-- Payload passed to `validateLoginForm` and to `authStore.login`. -/
structure LoginPayload where
  email : Option String
  phone : Option String
  password : Option String
  code : Option String
  type : String
deriving DecidableEq, Repr

/-- Payload passed to `validateRegisterForm` and to `authStore.register`. -/
structure RegisterPayload where
  phone : String
  password : String
  code : String
  nickname : Option String
  email : Option String
deriving DecidableEq, Repr

/-- Payload passed to `validateResetPasswordForm` and `authStore.resetPassword`. -/
structure ResetPayload where
  phone : String
  email : Option String
  code : String
  newPassword : String
deriving DecidableEq, Repr

/-- Result shape returned by the external validation utilities. -/
structure ValidationResult where
  isValid : Bool
  errors : List (String × String)
deriving DecidableEq, Repr

/-- Observable side effects issued by the component's handlers. -/
inductive Effect
  | toastSuccess (msg : String)
  | toastError (msg : String)
  | toastInfo (msg : String)
  | consoleError (msg : String)
  | validatorCall (which : FormKind)
  | authLogin (p : LoginPayload)
  | authRegister (p : RegisterPayload)
  | authResetPassword (p : ResetPayload)
  | apiSendCode (phone : String) (ctype : CodeType)
deriving DecidableEq, Repr

/-- `true` exactly on the effects that reach the network (auth store / API). -/
def isNetworkEffect : Effect → Bool
  | Effect.authLogin _ => true
  | Effect.authRegister _ => true
  | Effect.authResetPassword _ => true
  | Effect.apiSendCode _ _ => true
  | _ => false

/-- Outcome of an awaited external call: a response carrying a success flag
and optional message, or a thrown rejection. -/
inductive Outcome
  | ok (success : Bool) (msg : Option String)
  | exn
deriving DecidableEq, Repr

/-- The `loginForm` record: account (email or phone) and password. -/
structure LoginForm where
  account : String
  password : String
deriving DecidableEq, Repr

/-- The `phoneLoginForm` record. -/
structure PhoneLoginForm where
  phone : String
  code : String
deriving DecidableEq, Repr

/-- The `registerForm` record. -/
structure RegisterForm where
  phone : String
  password : String
  confirmPassword : String
  code : String
deriving DecidableEq, Repr

/-- The `forgotForm` record. -/
structure ForgotForm where
  phone : String
  code : String
  newPassword : String
  confirmPassword : String
deriving DecidableEq, Repr

/-- The component's reactive state, together with bookkeeping for the
timer allocator: `activeIntervals` / `activeTimeouts` are the currently
pending QR timers as `(id, duration-ms)` pairs, `firedTimeouts` records
timeouts that have already fired, and `nextId` feeds the allocator. -/
structure CompState where
  currentMode : Mode
  loginType : LoginType
  isLoading : Bool
  isSendingCode : Bool
  codeCountdown : Nat
  showWechatQR : Bool
  wechatQRUrl : String
  qrExpired : Bool
  qrScanned : Bool
  qrExpireTimer : Option Nat
  qrCheckInterval : Option Nat
  loginForm : LoginForm
  phoneLoginForm : PhoneLoginForm
  registerForm : RegisterForm
  forgotForm : ForgotForm
  loginErrors : List (String × String)
  registerErrors : List (String × String)
  forgotErrors : List (String × String)
  activeIntervals : List (Nat × Nat)
  activeTimeouts : List (Nat × Nat)
  firedTimeouts : List Nat
  nextId : Nat
deriving DecidableEq, Repr

/-- `QR_EXPIRE_TIME = 5 * 60 * 1000` (5 minutes, in milliseconds). -/
def QR_EXPIRE_TIME : Nat := 5 * 60 * 1000

/-- The base64 placeholder QR image assigned by `handleWechatLogin`. -/
def qrPlaceholder : String :=
  "data:image/svg+xml;base64,PHN2ZyB3aWR0aD0iMjAwIiBoZWlnaHQ9IjIwMCIgeG1sbnM9Imh0dHA6Ly93d3cudzMub3JnLzIwMDAvc3ZnIj4KICA8cmVjdCB3aWR0aD0iMjAwIiBoZWlnaHQ9IjIwMCIgZmlsbD0iI2Y1ZjVmNSIvPgogIDx0ZXh0IHg9IjUwJSIgeT0iNTAlIiB0ZXh0LWFuY2hvcj0ibWlkZGxlIiBkeT0iLjNlbSIgZm9udC1zaXplPSIxNCIgZmlsbD0iIzk5OTk5OSI+55So5o6l566h55CG6L295Lit6K+B77yBPC90ZXh0Pgo8L3N2Zz4K"

/-- The component's initial state, from the `$ref` initialisers. -/
def initState : CompState where
  currentMode := Mode.login
  loginType := LoginType.code
  isLoading := false
  isSendingCode := false
  codeCountdown := 0
  showWechatQR := true
  wechatQRUrl := ""
  qrExpired := false
  qrScanned := true
  qrExpireTimer := none
  qrCheckInterval := none
  loginForm := { account := "", password := "" }
  phoneLoginForm := { phone := "", code := "" }
  registerForm := { phone := "", password := "", confirmPassword := "", code := "" }
  forgotForm := { phone := "", code := "", newPassword := "", confirmPassword := "" }
  loginErrors := []
  registerErrors := []
  forgotErrors := []
  activeIntervals := []
  activeTimeouts := []
  firedTimeouts := []
  nextId := 0

/-- JavaScript `target[k] = v` on a string-keyed record: replace the
binding for `k` if present, otherwise append it. -/
def setKey (l : List (String × String)) (k v : String) : List (String × String) :=
  if l.any (fun p => p.1 == k) then
    l.map (fun p => if p.1 == k then (k, v) else p)
  else
    l ++ [(k, v)]

/-- `Object.assign(target, source)`: copy every binding of `source` into
`target`, overwriting existing keys. -/
def objAssign (target source : List (String × String)) : List (String × String) :=
  source.foldl (fun acc p => setKey acc p.1 p.2) target

/-- JavaScript `x || d` for an optional string (`null`, `undefined` and
`""` are falsy). -/
def jsOr (m : Option String) (d : String) : String :=
  match m with
  | none => d
  | some s => if s = "" then d else s

/-- Result of running a handler: the new component state, the trace of
side effects it issued, and whether an exception escaped the handler. -/
structure HandlerResult where
  state : CompState
  effects : List Effect
  thrown : Bool
deriving DecidableEq, Repr

/-- `clearQRTimers`: clear and null the expiry timeout, then the poll
interval (each guarded by a non-null check on its handle). -/
def clearQRTimers (s : CompState) : CompState :=
  let s1 :=
    match s.qrExpireTimer with
    | some t =>
        { s with activeTimeouts := s.activeTimeouts.filter (fun p => p.1 != t),
                 qrExpireTimer := none }
    | none => s
  match s1.qrCheckInterval with
  | some i =>
      { s1 with activeIntervals := s1.activeIntervals.filter (fun p => p.1 != i),
                qrCheckInterval := none }
  | none => s1

/-- `handleWechatLogin` (state part): show the QR panel, reset the
expired/scanned flags, set the placeholder image, then create the poll
interval (2000 ms) and the expiry timeout (`QR_EXPIRE_TIME`).  It does
NOT clear previously stored timers itself; its only caller inside the
component is `refreshQRCode`. -/
def handleWechatLogin (s : CompState) : CompState :=
  let s1 := { s with showWechatQR := true, qrExpired := false, qrScanned := false,
                     wechatQRUrl := qrPlaceholder }
  let iid := s1.nextId
  let s2 := { s1 with qrCheckInterval := some iid,
                      activeIntervals := (iid, 2000) :: s1.activeIntervals,
                      nextId := s1.nextId + 1 }
  let tid := s2.nextId
  { s2 with qrExpireTimer := some tid,
            activeTimeouts := (tid, QR_EXPIRE_TIME) :: s2.activeTimeouts,
            nextId := s2.nextId + 1 }

/-- `refreshQRCode`: clear both QR timers, reset the expired and scanned
flags, then run `handleWechatLogin`. -/
def refreshQRCode (s : CompState) : CompState :=
  let s1 := clearQRTimers s
  handleWechatLogin { s1 with qrExpired := false, qrScanned := false }

/-- The callback of the QR expiry timeout (`qrExpireTimer`): set the
expired flag, reset the scanned flag, clear and null the poll interval.
`t` is the id of the timeout that just fired; the callback leaves the
`qrExpireTimer` handle untouched. -/
def qrExpireCallback (t : Nat) (s : CompState) : CompState :=
  let s1 := { s with qrExpired := true, qrScanned := false,
                     firedTimeouts := t :: s.firedTimeouts }
  match s1.qrCheckInterval with
  | some i =>
      { s1 with activeIntervals := s1.activeIntervals.filter (fun p => p.1 != i),
                qrCheckInterval := none }
  | none => { s1 with qrCheckInterval := none }

/-- `clearErrors`: reset all three error maps. -/
def clearErrors (s : CompState) : CompState :=
  { s with loginErrors := [], registerErrors := [], forgotErrors := [] }

/-- `switchMode`: set the mode, clear all error maps, and when switching
to register/forgot while the QR panel is showing, tear the panel down
(clear timers, hide panel, reset the expired flag). -/
def switchMode (m : Mode) (s : CompState) : CompState :=
  let s1 := clearErrors { s with currentMode := m }
  if (m == Mode.register || m == Mode.forgot) && s1.showWechatQR then
    let s2 := clearQRTimers s1
    { s2 with showWechatQR := false, qrExpired := false }
  else s1

/-- Events that can reach the QR timer machinery of the mounted
component: the refresh button (the only call site of `handleWechatLogin`),
the expiry timeout firing, a poll tick (whose callback body is entirely
commented out, hence a no-op), a mode switch, and unmount
(`onBeforeUnmount` calls `clearQRTimers`). -/
inductive Event
  | refresh
  | expire
  | pollTick
  | modeSwitch (m : Mode)
  | unmount
deriving DecidableEq, Repr

/-- One step of the component's QR state machine.  `expire` fires the
pending expiry timeout (removing it from the pending list) and runs its
callback; with no pending timeout it is a no-op. -/
def step (s : CompState) (e : Event) : CompState :=
  match e with
  | Event.refresh => refreshQRCode s
  | Event.expire =>
      match s.activeTimeouts with
      | [] => s
      | (t, _) :: rest => qrExpireCallback t { s with activeTimeouts := rest }
  | Event.pollTick => s
  | Event.modeSwitch m => switchMode m s
  | Event.unmount => clearQRTimers s

/-- Run the machine from the initial state along a list of events. -/
def run (evs : List Event) : CompState :=
  evs.foldl step initState

/-- `true` when interval id `i` is currently pending. -/
def intervalActive (s : CompState) (i : Nat) : Bool :=
  s.activeIntervals.any (fun p => p.1 == i)

/-- `true` when timeout id `t` is currently pending. -/
def timeoutPending (s : CompState) (t : Nat) : Bool :=
  s.activeTimeouts.any (fun p => p.1 == t)

/-- The `:disabled` binding of all three resend-code buttons:
`isSendingCode || codeCountdown > 0`. -/
def resendDisabled (s : CompState) : Bool :=
  s.isSendingCode || decide (s.codeCountdown > 0)

/-- The `v-if` condition of the scan-success overlay:
`showWechatQR && qrScanned && !qrExpired`. -/
def scanOverlayVisible (s : CompState) : Bool :=
  s.showWechatQR && s.qrScanned && !s.qrExpired

/-- The validation payload built by `handleLogin`: the account field is
routed to `email` or `phone` by whether it contains an `@`. -/
def loginPayloadOf (s : CompState) : LoginPayload :=
  let isEmail := s.loginForm.account.contains '@'
  { email := if isEmail then some s.loginForm.account else none
    phone := if isEmail then none else some s.loginForm.account
    password := some s.loginForm.password
    code := none
    type := "email" }

/-- The validation payload built by `handlePhoneCodeLogin`. -/
def phonePayloadOf (s : CompState) : LoginPayload :=
  { email := none
    phone := some s.phoneLoginForm.phone
    password := none
    code := some s.phoneLoginForm.code
    type := "phone" }

/-- The payload built by `handleRegister`. -/
def registerPayloadOf (s : CompState) : RegisterPayload :=
  { phone := s.registerForm.phone
    password := s.registerForm.password
    code := s.registerForm.code
    nickname := none
    email := none }

/-- The payload built by `handleForgotPassword`. -/
def resetPayloadOf (s : CompState) : ResetPayload :=
  { phone := s.forgotForm.phone
    email := none
    code := s.forgotForm.code
    newPassword := s.forgotForm.newPassword }

/-- `handleLogin`: delegate to `validateLoginForm` (oracle `validate`);
on failure merge the per-field errors into `loginErrors` and return.
Otherwise set the loading flag and await `authStore.login` (oracle
`out`); the `try`/`finally` resets the loading flag but there is no
`catch`, so a thrown rejection escapes the handler. -/
def handleLogin (validate : LoginPayload → ValidationResult) (out : Outcome)
    (s : CompState) : HandlerResult :=
  let p := loginPayloadOf s
  let validation := validate p
  if !validation.isValid then
    { state := { s with loginErrors := objAssign s.loginErrors validation.errors }
      effects := [Effect.validatorCall FormKind.vLogin]
      thrown := false }
  else
    let s1 := { s with isLoading := true }
    match out with
    | Outcome.ok _ _ =>
        { state := { s1 with isLoading := false }
          effects := [Effect.validatorCall FormKind.vLogin, Effect.authLogin p]
          thrown := false }
    | Outcome.exn =>
        { state := { s1 with isLoading := false }
          effects := [Effect.validatorCall FormKind.vLogin, Effect.authLogin p]
          thrown := true }

/-- `handlePhoneCodeLogin`: like `handleLogin` but over the phone-code
form; failures merge into the same `loginErrors` map. -/
def handlePhoneCodeLogin (validate : LoginPayload → ValidationResult)
    (out : Outcome) (s : CompState) : HandlerResult :=
  let p := phonePayloadOf s
  let validation := validate p
  if !validation.isValid then
    { state := { s with loginErrors := objAssign s.loginErrors validation.errors }
      effects := [Effect.validatorCall FormKind.vLogin]
      thrown := false }
  else
    let s1 := { s with isLoading := true }
    match out with
    | Outcome.ok _ _ =>
        { state := { s1 with isLoading := false }
          effects := [Effect.validatorCall FormKind.vLogin, Effect.authLogin p]
          thrown := false }
    | Outcome.exn =>
        { state := { s1 with isLoading := false }
          effects := [Effect.validatorCall FormKind.vLogin, Effect.authLogin p]
          thrown := true }

/-- `handleRegister`: first the password/confirm-password equality guard
(toast and return on mismatch, before the validator and the store), then
validation, then `authStore.register` under `try`/`finally` (no `catch`). -/
def handleRegister (validate : RegisterPayload → ValidationResult)
    (out : Outcome) (s : CompState) : HandlerResult :=
  if s.registerForm.password ≠ s.registerForm.confirmPassword then
    { state := s, effects := [Effect.toastError "两次密码输入不一致"], thrown := false }
  else
    let p := registerPayloadOf s
    let validation := validate p
    if !validation.isValid then
      { state := { s with registerErrors := objAssign s.registerErrors validation.errors }
        effects := [Effect.validatorCall FormKind.vRegister]
        thrown := false }
    else
      let s1 := { s with isLoading := true }
      match out with
      | Outcome.ok _ _ =>
          { state := { s1 with isLoading := false }
            effects := [Effect.validatorCall FormKind.vRegister, Effect.authRegister p]
            thrown := false }
      | Outcome.exn =>
          { state := { s1 with isLoading := false }
            effects := [Effect.validatorCall FormKind.vRegister, Effect.authRegister p]
            thrown := true }

/-- `handleForgotPassword`: password/confirm guard, validation, then
`authStore.resetPassword` under `try`/`finally` (no `catch`); on a
successful response it toasts and switches back to login mode, on an
unsuccessful one it toasts the server message or a fallback. -/
def handleForgotPassword (validate : ResetPayload → ValidationResult)
    (out : Outcome) (s : CompState) : HandlerResult :=
  if s.forgotForm.newPassword ≠ s.forgotForm.confirmPassword then
    { state := s, effects := [Effect.toastError "两次密码输入不一致"], thrown := false }
  else
    let p := resetPayloadOf s
    let validation := validate p
    if !validation.isValid then
      { state := { s with forgotErrors := objAssign s.forgotErrors validation.errors }
        effects := [Effect.validatorCall FormKind.vReset]
        thrown := false }
    else
      let s1 := { s with isLoading := true }
      match out with
      | Outcome.ok true _ =>
          { state := switchMode Mode.login { s1 with isLoading := false }
            effects := [Effect.validatorCall FormKind.vReset, Effect.authResetPassword p,
                        Effect.toastSuccess "密码重置成功，请重新登录"]
            thrown := false }
      | Outcome.ok false msg =>
          { state := { s1 with isLoading := false }
            effects := [Effect.validatorCall FormKind.vReset, Effect.authResetPassword p,
                        Effect.toastError (jsOr msg "重置失败")]
            thrown := false }
      | Outcome.exn =>
          { state := { s1 with isLoading := false }
            effects := [Effect.validatorCall FormKind.vReset, Effect.authResetPassword p]
            thrown := true }

/-- `sendVerificationCode`: empty-phone and regex guards (the regex test
is the oracle `phoneValid`, the configured resend interval is
`sendInterval`), then the send-code API call under `try`/`catch`/`finally`:
the `catch` logs and toasts a generic message, the `finally` resets the
in-flight flag.  The function itself never checks `isSendingCode` or
`codeCountdown`. -/
def sendVerificationCode (phone : String) (ctype : CodeType)
    (phoneValid : Bool) (sendInterval : Nat) (out : Outcome)
    (s : CompState) : HandlerResult :=
  if phone = "" then
    { state := s, effects := [Effect.toastError "请输入手机号"], thrown := false }
  else if !phoneValid then
    { state := s, effects := [Effect.toastError "请输入有效的手机号"], thrown := false }
  else
    let s1 := { s with isSendingCode := true }
    match out with
    | Outcome.ok true _ =>
        { state := { s1 with codeCountdown := sendInterval, isSendingCode := false }
          effects := [Effect.apiSendCode phone ctype, Effect.toastSuccess "验证码已发送"]
          thrown := false }
    | Outcome.ok false msg =>
        { state := { s1 with isSendingCode := false }
          effects := [Effect.apiSendCode phone ctype, Effect.toastError (jsOr msg "发送失败")]
          thrown := false }
    | Outcome.exn =>
        { state := { s1 with isSendingCode := false }
          effects := [Effect.apiSendCode phone ctype,
                      Effect.consoleError "Send code error:",
                      Effect.toastError "发送验证码失败"]
          thrown := false }

/-- Invariant of the QR timer machinery: at most one poll interval and
one expiry timeout are pending; every pending interval (resp. timeout) is
the one pointed to by its handle and has the fixed period 2000 ms (resp.
the fixed duration `QR_EXPIRE_TIME`); a non-null interval handle always
points to a pending interval; a non-null timeout handle points to a
pending timeout or to one that has already fired. -/
def TimersInv (s : CompState) : Prop :=
  s.activeIntervals.length ≤ 1 ∧
  s.activeTimeouts.length ≤ 1 ∧
  (∀ p ∈ s.activeIntervals, s.qrCheckInterval = some p.1 ∧ p.2 = 2000) ∧
  (∀ p ∈ s.activeTimeouts, s.qrExpireTimer = some p.1 ∧ p.2 = QR_EXPIRE_TIME) ∧
  (∀ i, s.qrCheckInterval = some i → intervalActive s i = true) ∧
  (∀ t, s.qrExpireTimer = some t →
      timeoutPending s t = true ∨ s.firedTimeouts.contains t = true)

lemma clearQRTimers_clears (s : CompState)
    (h3 : ∀ p ∈ s.activeIntervals, s.qrCheckInterval = some p.1)
    (h4 : ∀ p ∈ s.activeTimeouts, s.qrExpireTimer = some p.1) :
    clearQRTimers s =
      { s with activeIntervals := [], activeTimeouts := [],
               qrExpireTimer := none, qrCheckInterval := none } := by
  have hTs : ∀ t, s.qrExpireTimer = some t →
      s.activeTimeouts.filter (fun p => p.1 != t) = [] := by
    intro t ht
    rw [List.filter_eq_nil_iff]
    intro p hp
    have h := h4 p hp
    rw [ht] at h
    simp only [Option.some.injEq] at h
    simp [h]
  have hTn : s.qrExpireTimer = none → s.activeTimeouts = [] := by
    intro ht
    rw [List.eq_nil_iff_forall_not_mem]
    intro p hp
    have h := h4 p hp
    rw [ht] at h
    exact absurd h (by simp)
  have hIs : ∀ i, s.qrCheckInterval = some i →
      s.activeIntervals.filter (fun p => p.1 != i) = [] := by
    intro i hi
    rw [List.filter_eq_nil_iff]
    intro p hp
    have h := h3 p hp
    rw [hi] at h
    simp only [Option.some.injEq] at h
    simp [h]
  have hIn : s.qrCheckInterval = none → s.activeIntervals = [] := by
    intro hi
    rw [List.eq_nil_iff_forall_not_mem]
    intro p hp
    have h := h3 p hp
    rw [hi] at h
    exact absurd h (by simp)
  obtain ⟨cm, lt, il, isc, cc, swq, url, qe, qs, qet, qci, lf, plf, rf, ff,
    le, re, fe, ai, atm, ft, ni⟩ := s
  cases qet <;> cases qci <;> simp_all [clearQRTimers] <;>
    first
    | exact hTs
    | exact hIs
    | exact ⟨hIs, hTs⟩

lemma timersInv_of_cleared (s : CompState)
    (hInt : s.activeIntervals = []) (hT : s.activeTimeouts = [])
    (hI : s.qrCheckInterval = none) (hE : s.qrExpireTimer = none) :
    TimersInv s := by
  refine ⟨?_, ?_, ?_, ?_, ?_, ?_⟩
  · simp [hInt]
  · simp [hT]
  · simp [hInt]
  · simp [hT]
  · intro i hi
    rw [hI] at hi
    exact absurd hi (by simp)
  · intro t ht
    rw [hE] at ht
    exact absurd ht (by simp)

lemma timersInv_handleWechatLogin (s : CompState)
    (hInt : s.activeIntervals = []) (hT : s.activeTimeouts = []) :
    TimersInv (handleWechatLogin s) := by
  refine ⟨?_, ?_, ?_, ?_, ?_, ?_⟩ <;>
    simp [handleWechatLogin, hInt, hT, intervalActive, timeoutPending]

lemma timersInv_clearQRTimers (s : CompState) (h : TimersInv s) :
    TimersInv (clearQRTimers s) := by
  obtain ⟨_, _, h3, h4, _, _⟩ := h
  rw [clearQRTimers_clears s (fun p hp => (h3 p hp).1) (fun p hp => (h4 p hp).1)]
  exact timersInv_of_cleared _ rfl rfl rfl rfl

lemma timersInv_refreshQRCode (s : CompState) (h : TimersInv s) :
    TimersInv (refreshQRCode s) := by
  obtain ⟨_, _, h3, h4, _, _⟩ := h
  unfold refreshQRCode
  rw [clearQRTimers_clears s (fun p hp => (h3 p hp).1) (fun p hp => (h4 p hp).1)]
  exact timersInv_handleWechatLogin _ rfl rfl

lemma timersInv_switchMode (m : Mode) (s : CompState) (h : TimersInv s) :
    TimersInv (switchMode m s) := by
  obtain ⟨h1, h2, h3, h4, h5, h6⟩ := h
  unfold switchMode
  by_cases hc : ((m == Mode.register || m == Mode.forgot) &&
      (clearErrors { s with currentMode := m }).showWechatQR) = true
  · rw [if_pos hc]
    have h3' : ∀ p ∈ (clearErrors { s with currentMode := m }).activeIntervals,
        (clearErrors { s with currentMode := m }).qrCheckInterval = some p.1 := by
      intro p hp
      simp only [clearErrors] at hp ⊢
      exact (h3 p hp).1
    have h4' : ∀ p ∈ (clearErrors { s with currentMode := m }).activeTimeouts,
        (clearErrors { s with currentMode := m }).qrExpireTimer = some p.1 := by
      intro p hp
      simp only [clearErrors] at hp ⊢
      exact (h4 p hp).1
    rw [clearQRTimers_clears _ h3' h4']
    exact timersInv_of_cleared _ rfl rfl rfl rfl
  · rw [if_neg hc]
    refine ⟨?_, ?_, ?_, ?_, ?_, ?_⟩
    · simpa [clearErrors] using h1
    · simpa [clearErrors] using h2
    · intro p hp
      simp only [clearErrors] at hp ⊢
      exact h3 p hp
    · intro p hp
      simp only [clearErrors] at hp ⊢
      exact h4 p hp
    · intro i hi
      simp only [clearErrors] at hi ⊢
      simpa [intervalActive, clearErrors] using h5 i hi
    · intro t ht
      simp only [clearErrors] at ht ⊢
      simpa [timeoutPending, clearErrors] using h6 t ht

lemma timersInv_expire (s : CompState) (h : TimersInv s) :
    TimersInv (step s Event.expire) := by
  obtain ⟨h1, h2, h3, h4, h5, h6⟩ := h
  unfold step
  cases hT : s.activeTimeouts with
  | nil => exact ⟨h1, h2, h3, h4, h5, h6⟩
  | cons p rest =>
      have hrest : rest = [] := by
        rw [hT] at h2
        simpa using h2
      subst hrest
      have hE : s.qrExpireTimer = some p.1 := (h4 p (by rw [hT]; exact List.mem_singleton_self p)).1
      have hIfilter : ∀ i, s.qrCheckInterval = some i →
          s.activeIntervals.filter (fun q => q.1 != i) = [] := by
        intro i hi
        rw [List.filter_eq_nil_iff]
        intro q hq
        have h := (h3 q hq).1
        rw [hi] at h
        simp only [Option.some.injEq] at h
        simp [h]
      have hInil : s.qrCheckInterval = none → s.activeIntervals = [] := by
        intro hi
        rw [List.eq_nil_iff_forall_not_mem]
        intro q hq
        have h := (h3 q hq).1
        rw [hi] at h
        exact absurd h (by simp)
      cases p with
      | mk t d =>
      refine ⟨?_, ?_, ?_, ?_, ?_, ?_⟩
      · cases hI : s.qrCheckInterval with
        | none => simp [qrExpireCallback, hI, hInil hI]
        | some i => simp [qrExpireCallback, hI, hIfilter i hI]
      · cases hI : s.qrCheckInterval with
        | none => simp [qrExpireCallback, hI]
        | some i => simp [qrExpireCallback, hI]
      · intro q hq
        exfalso
        cases hI : s.qrCheckInterval with
        | none =>
            rw [show (qrExpireCallback t { s with activeTimeouts := [] }).activeIntervals
                = s.activeIntervals by simp [qrExpireCallback, hI]] at hq
            have := hInil hI
            rw [this] at hq
            exact absurd hq (by simp)
        | some i =>
            rw [show (qrExpireCallback t { s with activeTimeouts := [] }).activeIntervals
                = s.activeIntervals.filter (fun q => q.1 != i) by
              simp [qrExpireCallback, hI]] at hq
            rw [hIfilter i hI] at hq
            exact absurd hq (by simp)
      · intro q hq
        exfalso
        have : (qrExpireCallback t { s with activeTimeouts := [] }).activeTimeouts = [] := by
          cases hI : s.qrCheckInterval with
          | none => simp [qrExpireCallback, hI]
          | some i => simp [qrExpireCallback, hI]
        rw [this] at hq
        exact absurd hq (by simp)
      · intro i hi
        exfalso
        have : (qrExpireCallback t { s with activeTimeouts := [] }).qrCheckInterval = none := by
          cases hI : s.qrCheckInterval with
          | none => simp [qrExpireCallback, hI]
          | some j => simp [qrExpireCallback, hI]
        rw [this] at hi
        exact absurd hi (by simp)
      · intro u hu
        right
        have hu' : (qrExpireCallback t { s with activeTimeouts := [] }).qrExpireTimer
            = s.qrExpireTimer := by
          cases hI : s.qrCheckInterval with
          | none => simp [qrExpireCallback, hI]
          | some j => simp [qrExpireCallback, hI]
        rw [hu', hE] at hu
        simp only [Option.some.injEq] at hu
        have hft : (qrExpireCallback t { s with activeTimeouts := [] }).firedTimeouts
            = t :: s.firedTimeouts := by
          cases hI : s.qrCheckInterval with
          | none => simp [qrExpireCallback, hI]
          | some j => simp [qrExpireCallback, hI]
        rw [hft, ← hu]
        simp

lemma timersInv_step (s : CompState) (e : Event) (h : TimersInv s) :
    TimersInv (step s e) := by
  cases e with
  | refresh => exact timersInv_refreshQRCode s h
  | expire => exact timersInv_expire s h
  | pollTick => exact h
  | modeSwitch m => exact timersInv_switchMode m s h
  | unmount => exact timersInv_clearQRTimers s h

lemma timersInv_initState : TimersInv initState := by
  refine ⟨?_, ?_, ?_, ?_, ?_, ?_⟩ <;> simp [initState]

lemma timersInv_foldl : ∀ (evs : List Event) (s : CompState),
    TimersInv s → TimersInv (evs.foldl step s)
  | [], _, h => h
  | e :: evs, s, h => timersInv_foldl evs (step s e) (timersInv_step s e h)

lemma timersInv_run (evs : List Event) : TimersInv (run evs) :=
  timersInv_foldl evs initState timersInv_initState

lemma qrExpireCallback_fields (t : Nat) (s : CompState)
    (hIs : ∀ i, s.qrCheckInterval = some i →
      s.activeIntervals.filter (fun q => q.1 != i) = [])
    (hIn : s.qrCheckInterval = none → s.activeIntervals = []) :
    (qrExpireCallback t s).qrExpired = true ∧
    (qrExpireCallback t s).qrScanned = false ∧
    (qrExpireCallback t s).qrCheckInterval = none ∧
    (qrExpireCallback t s).activeIntervals = [] ∧
    (qrExpireCallback t s).activeTimeouts = s.activeTimeouts ∧
    (qrExpireCallback t s).qrExpireTimer = s.qrExpireTimer ∧
    (qrExpireCallback t s).firedTimeouts = t :: s.firedTimeouts := by
  cases hc : s.qrCheckInterval with
  | none => simp [qrExpireCallback, hc, hIn hc]
  | some i => simp [qrExpireCallback, hc, hIs i hc]

/-- A concrete always-failing login validator (oracle for witnesses). -/
def failLoginValidator : LoginPayload → ValidationResult :=
  fun _ => { isValid := false, errors := [("phone", "请输入有效的手机号")] }

/-- A concrete always-failing register validator. -/
def failRegisterValidator : RegisterPayload → ValidationResult :=
  fun _ => { isValid := false, errors := [("password", "密码长度为6-20位")] }

/-- A concrete always-failing reset-password validator. -/
def failResetValidator : ResetPayload → ValidationResult :=
  fun _ => { isValid := false, errors := [("code", "验证码错误")] }

/-- A concrete always-passing login validator. -/
def okLoginValidator : LoginPayload → ValidationResult :=
  fun _ => { isValid := true, errors := [] }

/-- A concrete always-passing register validator. -/
def okRegisterValidator : RegisterPayload → ValidationResult :=
  fun _ => { isValid := true, errors := [] }

/-- A concrete always-passing reset-password validator. -/
def okResetValidator : ResetPayload → ValidationResult :=
  fun _ => { isValid := true, errors := [] }

/-- A concrete state whose register and forgot forms have mismatched
password / confirm-password fields. -/
def mismatchState : CompState :=
  { initState with
      registerForm :=
        { phone := "13800138000", password := "abcdef",
          confirmPassword := "abcdeg", code := "1234" },
      forgotForm :=
        { phone := "13800138000", code := "1234",
          newPassword := "abcdef", confirmPassword := "abcdeg" } }

/-- C9: in the component's initial state the QR panel is already showing
with an empty image source, the scanned flag starts `true`, so the
scan-success overlay condition `showWechatQR && qrScanned && !qrExpired`
holds at startup even though both timer handles are null and no timers
are pending. -/
theorem initial_qr_overlay_state :
    initState.showWechatQR = true ∧ initState.wechatQRUrl = "" ∧
    initState.qrScanned = true ∧ initState.qrExpired = false ∧
    scanOverlayVisible initState = true ∧
    initState.qrExpireTimer = none ∧ initState.qrCheckInterval = none ∧
    initState.activeIntervals = [] ∧ initState.activeTimeouts = [] := by
  refine ⟨rfl, rfl, rfl, rfl, rfl, rfl, rfl, rfl, rfl⟩

/-- C2: in every reachable state at most one QR poll interval and one QR
expiry timeout are pending; moreover `clearQRTimers` (which runs at the
head of `refreshQRCode`, the only call site of `handleWechatLogin`)
leaves no pending QR timer, so every start of the QR flow first clears
the stored timers and then creates exactly one interval and one timeout. -/
theorem qr_start_no_duplicate_timers (evs : List Event) :
    (run evs).activeIntervals.length ≤ 1 ∧
    (run evs).activeTimeouts.length ≤ 1 ∧
    (clearQRTimers (run evs)).activeIntervals = [] ∧
    (clearQRTimers (run evs)).activeTimeouts = [] ∧
    (refreshQRCode (run evs)).activeIntervals.length = 1 ∧
    (refreshQRCode (run evs)).activeTimeouts.length = 1 := by
  obtain ⟨h1, h2, h3, h4, h5, h6⟩ := timersInv_run evs
  have hc := clearQRTimers_clears (run evs)
    (fun p hp => (h3 p hp).1) (fun p hp => (h4 p hp).1)
  refine ⟨h1, h2, ?_, ?_, ?_, ?_⟩
  · rw [hc]
  · rw [hc]
  · unfold refreshQRCode
    rw [hc]
    simp [handleWechatLogin]
  · unfold refreshQRCode
    rw [hc]
    simp [handleWechatLogin]

/-- C6: unmounting from any reachable state runs `clearQRTimers`, which
nulls both QR timer handles and leaves no pending QR timer, so no timer
callback can run after teardown. -/
theorem unmount_clears_timers (evs : List Event) :
    (step (run evs) Event.unmount).qrExpireTimer = none ∧
    (step (run evs) Event.unmount).qrCheckInterval = none ∧
    (step (run evs) Event.unmount).activeIntervals = [] ∧
    (step (run evs) Event.unmount).activeTimeouts = [] := by
  obtain ⟨h1, h2, h3, h4, h5, h6⟩ := timersInv_run evs
  have hc := clearQRTimers_clears (run evs)
    (fun p hp => (h3 p hp).1) (fun p hp => (h4 p hp).1)
  simp only [step]
  rw [hc]
  exact ⟨rfl, rfl, rfl, rfl⟩

/-- C3 counterexample: in the reachable state obtained by starting the
QR flow and letting the expiry timeout fire, the `qrExpireTimer` handle
is still non-null (`some 1`) although no timeout is pending any more —
the expiry callback never nulls its own handle. -/
theorem stale_expire_handle_counterexample :
    (run [Event.refresh, Event.expire]).qrExpireTimer = some 1 ∧
    (run [Event.refresh, Event.expire]).activeTimeouts = [] ∧
    timeoutPending (run [Event.refresh, Event.expire]) 1 = false := by
  refine ⟨rfl, rfl, rfl⟩

/-- C3 amended: in every reachable state a non-null `qrCheckInterval`
handle points to a pending poll interval, and a non-null `qrExpireTimer`
handle points to a pending expiry timeout or to one that has already
fired (firing leaves the handle stale; only `clearQRTimers` nulls it). -/
theorem timer_handles_amended (evs : List Event) :
    (∀ i, (run evs).qrCheckInterval = some i → intervalActive (run evs) i = true) ∧
    (∀ t, (run evs).qrExpireTimer = some t →
        timeoutPending (run evs) t = true ∨
        (run evs).firedTimeouts.contains t = true) :=
  ⟨(timersInv_run evs).2.2.2.2.1, (timersInv_run evs).2.2.2.2.2⟩

theorem timer_handles_amended_witness :
    ((run [Event.refresh]).qrCheckInterval = some 0 ∧
      intervalActive (run [Event.refresh]) 0 = true) ∧
    ((run [Event.refresh]).qrExpireTimer = some 1 ∧
      (timeoutPending (run [Event.refresh]) 1 = true ∨
        (run [Event.refresh]).firedTimeouts.contains 1 = true)) :=
  ⟨⟨rfl, (timer_handles_amended [Event.refresh]).1 0 rfl⟩,
   ⟨rfl, (timer_handles_amended [Event.refresh]).2 1 rfl⟩⟩

/-- C5: whenever an expiry timeout is pending in a reachable state, it
was created with the fixed 5-minute duration `QR_EXPIRE_TIME`, and its
firing sets the expired flag, resets the scanned flag, and clears and
nulls the poll interval, leaving no pending poll interval or timeout. -/
theorem qr_expiry_clears_poll (evs : List Event)
    (h : (run evs).activeTimeouts ≠ []) :
    QR_EXPIRE_TIME = 5 * 60 * 1000 ∧
    (∀ p ∈ (run evs).activeTimeouts, p.2 = QR_EXPIRE_TIME) ∧
    (step (run evs) Event.expire).qrExpired = true ∧
    (step (run evs) Event.expire).qrScanned = false ∧
    (step (run evs) Event.expire).qrCheckInterval = none ∧
    (step (run evs) Event.expire).activeIntervals = [] ∧
    (step (run evs) Event.expire).activeTimeouts = [] := by
  obtain ⟨h1, h2, h3, h4, h5, h6⟩ := timersInv_run evs
  cases hT : (run evs).activeTimeouts with
  | nil => exact absurd hT h
  | cons p rest =>
      have hrest : rest = [] := by
        rw [hT] at h2
        simpa using h2
      subst hrest
      cases p with
      | mk t d =>
      have hfields := qrExpireCallback_fields t { run evs with activeTimeouts := [] }
        (by
          intro i hi
          simp only at hi
          rw [List.filter_eq_nil_iff]
          intro q hq
          simp only at hq
          have hq' := (h3 q hq).1
          rw [hi] at hq'
          simp only [Option.some.injEq] at hq'
          simp [hq'])
        (by
          intro hi
          simp only at hi
          rw [List.eq_nil_iff_forall_not_mem]
          intro q hq
          simp only at hq
          have hq' := (h3 q hq).1
          rw [hi] at hq'
          exact absurd hq' (by simp))
      refine ⟨rfl, ?_, ?_, ?_, ?_, ?_, ?_⟩
      · intro q hq
        exact (h4 q (by rw [hT]; exact hq)).2
      · simp only [step, hT]
        exact hfields.1
      · simp only [step, hT]
        exact hfields.2.1
      · simp only [step, hT]
        exact hfields.2.2.1
      · simp only [step, hT]
        exact hfields.2.2.2.1
      · simp only [step, hT]
        exact hfields.2.2.2.2.1

theorem qr_expiry_clears_poll_witness :
    (run [Event.refresh]).activeTimeouts ≠ [] ∧
    (QR_EXPIRE_TIME = 5 * 60 * 1000 ∧
      (∀ p ∈ (run [Event.refresh]).activeTimeouts, p.2 = QR_EXPIRE_TIME) ∧
      (step (run [Event.refresh]) Event.expire).qrExpired = true ∧
      (step (run [Event.refresh]) Event.expire).qrScanned = false ∧
      (step (run [Event.refresh]) Event.expire).qrCheckInterval = none ∧
      (step (run [Event.refresh]) Event.expire).activeIntervals = [] ∧
      (step (run [Event.refresh]) Event.expire).activeTimeouts = []) :=
  ⟨by decide, qr_expiry_clears_poll [Event.refresh] (by decide)⟩

/-- C7: switching to register or forgot mode from any reachable state in
which the QR panel is showing hides the panel, resets the expired flag,
and clears and nulls both QR timers. -/
theorem switch_away_hides_qr (evs : List Event) (m : Mode)
    (hm : m = Mode.register ∨ m = Mode.forgot)
    (hq : (run evs).showWechatQR = true) :
    (step (run evs) (Event.modeSwitch m)).showWechatQR = false ∧
    (step (run evs) (Event.modeSwitch m)).qrExpired = false ∧
    (step (run evs) (Event.modeSwitch m)).qrExpireTimer = none ∧
    (step (run evs) (Event.modeSwitch m)).qrCheckInterval = none ∧
    (step (run evs) (Event.modeSwitch m)).activeIntervals = [] ∧
    (step (run evs) (Event.modeSwitch m)).activeTimeouts = [] ∧
    (step (run evs) (Event.modeSwitch m)).currentMode = m := by
  obtain ⟨h1, h2, h3, h4, h5, h6⟩ := timersInv_run evs
  have hcond : ((m == Mode.register || m == Mode.forgot) &&
      (clearErrors { run evs with currentMode := m }).showWechatQR) = true := by
    rcases hm with hm | hm <;> subst hm <;> simp [clearErrors, hq]
  have h3' : ∀ p ∈ (clearErrors { run evs with currentMode := m }).activeIntervals,
      (clearErrors { run evs with currentMode := m }).qrCheckInterval = some p.1 := by
    intro p hp
    simp only [clearErrors] at hp ⊢
    exact (h3 p hp).1
  have h4' : ∀ p ∈ (clearErrors { run evs with currentMode := m }).activeTimeouts,
      (clearErrors { run evs with currentMode := m }).qrExpireTimer = some p.1 := by
    intro p hp
    simp only [clearErrors] at hp ⊢
    exact (h4 p hp).1
  have hc := clearQRTimers_clears _ h3' h4'
  simp only [step, switchMode]
  rw [if_pos hcond, hc]
  exact ⟨rfl, rfl, rfl, rfl, rfl, rfl, rfl⟩

theorem switch_away_hides_qr_witness :
    (Mode.register = Mode.register ∨ Mode.register = Mode.forgot) ∧
    (run []).showWechatQR = true ∧
    ((step (run []) (Event.modeSwitch Mode.register)).showWechatQR = false ∧
      (step (run []) (Event.modeSwitch Mode.register)).qrExpired = false ∧
      (step (run []) (Event.modeSwitch Mode.register)).qrExpireTimer = none ∧
      (step (run []) (Event.modeSwitch Mode.register)).qrCheckInterval = none ∧
      (step (run []) (Event.modeSwitch Mode.register)).activeIntervals = [] ∧
      (step (run []) (Event.modeSwitch Mode.register)).activeTimeouts = [] ∧
      (step (run []) (Event.modeSwitch Mode.register)).currentMode = Mode.register) :=
  ⟨Or.inl rfl, rfl, switch_away_hides_qr [] Mode.register (Or.inl rfl) rfl⟩

/-- C1: whenever the delegated validator reports `isValid = false`, each
of the four submit handlers merges the returned per-field errors into its
form's error map and returns at once — the result is exactly the
error-merged state with the validator call as the only effect, so no
auth-store or API call is issued.  (For register/forgot the validator
only runs when the password/confirm guard passed, hence the equality
hypotheses there.) -/
theorem invalid_submit_no_network :
    (∀ (v : LoginPayload → ValidationResult) (out : Outcome) (s : CompState),
        (v (loginPayloadOf s)).isValid = false →
        handleLogin v out s =
          { state := { s with loginErrors := objAssign s.loginErrors (v (loginPayloadOf s)).errors },
            effects := [Effect.validatorCall FormKind.vLogin],
            thrown := false } ∧
        (handleLogin v out s).effects.any isNetworkEffect = false) ∧
    (∀ (v : LoginPayload → ValidationResult) (out : Outcome) (s : CompState),
        (v (phonePayloadOf s)).isValid = false →
        handlePhoneCodeLogin v out s =
          { state := { s with loginErrors := objAssign s.loginErrors (v (phonePayloadOf s)).errors },
            effects := [Effect.validatorCall FormKind.vLogin],
            thrown := false } ∧
        (handlePhoneCodeLogin v out s).effects.any isNetworkEffect = false) ∧
    (∀ (v : RegisterPayload → ValidationResult) (out : Outcome) (s : CompState),
        s.registerForm.password = s.registerForm.confirmPassword →
        (v (registerPayloadOf s)).isValid = false →
        handleRegister v out s =
          { state := { s with registerErrors := objAssign s.registerErrors (v (registerPayloadOf s)).errors },
            effects := [Effect.validatorCall FormKind.vRegister],
            thrown := false } ∧
        (handleRegister v out s).effects.any isNetworkEffect = false) ∧
    (∀ (v : ResetPayload → ValidationResult) (out : Outcome) (s : CompState),
        s.forgotForm.newPassword = s.forgotForm.confirmPassword →
        (v (resetPayloadOf s)).isValid = false →
        handleForgotPassword v out s =
          { state := { s with forgotErrors := objAssign s.forgotErrors (v (resetPayloadOf s)).errors },
            effects := [Effect.validatorCall FormKind.vReset],
            thrown := false } ∧
        (handleForgotPassword v out s).effects.any isNetworkEffect = false) := by
  refine ⟨?_, ?_, ?_, ?_⟩
  · intro v out s hv
    have he : handleLogin v out s =
        { state := { s with loginErrors := objAssign s.loginErrors (v (loginPayloadOf s)).errors },
          effects := [Effect.validatorCall FormKind.vLogin],
          thrown := false } := by
      simp [handleLogin, hv]
    exact ⟨he, by rw [he]; simp [isNetworkEffect]⟩
  · intro v out s hv
    have he : handlePhoneCodeLogin v out s =
        { state := { s with loginErrors := objAssign s.loginErrors (v (phonePayloadOf s)).errors },
          effects := [Effect.validatorCall FormKind.vLogin],
          thrown := false } := by
      simp [handlePhoneCodeLogin, hv]
    exact ⟨he, by rw [he]; simp [isNetworkEffect]⟩
  · intro v out s hpw hv
    have he : handleRegister v out s =
        { state := { s with registerErrors := objAssign s.registerErrors (v (registerPayloadOf s)).errors },
          effects := [Effect.validatorCall FormKind.vRegister],
          thrown := false } := by
      simp [handleRegister, hpw, hv]
    exact ⟨he, by rw [he]; simp [isNetworkEffect]⟩
  · intro v out s hpw hv
    have he : handleForgotPassword v out s =
        { state := { s with forgotErrors := objAssign s.forgotErrors (v (resetPayloadOf s)).errors },
          effects := [Effect.validatorCall FormKind.vReset],
          thrown := false } := by
      simp [handleForgotPassword, hpw, hv]
    exact ⟨he, by rw [he]; simp [isNetworkEffect]⟩

theorem invalid_submit_no_network_witness :
    ((failLoginValidator (loginPayloadOf initState)).isValid = false ∧
      (handleLogin failLoginValidator Outcome.exn initState =
        { state := { initState with loginErrors := objAssign initState.loginErrors (failLoginValidator (loginPayloadOf initState)).errors },
          effects := [Effect.validatorCall FormKind.vLogin],
          thrown := false } ∧
        (handleLogin failLoginValidator Outcome.exn initState).effects.any
          isNetworkEffect = false)) ∧
    ((failLoginValidator (phonePayloadOf initState)).isValid = false ∧
      (handlePhoneCodeLogin failLoginValidator Outcome.exn initState =
        { state := { initState with loginErrors := objAssign initState.loginErrors (failLoginValidator (phonePayloadOf initState)).errors },
          effects := [Effect.validatorCall FormKind.vLogin],
          thrown := false } ∧
        (handlePhoneCodeLogin failLoginValidator Outcome.exn initState).effects.any
          isNetworkEffect = false)) ∧
    (initState.registerForm.password = initState.registerForm.confirmPassword ∧
      (failRegisterValidator (registerPayloadOf initState)).isValid = false ∧
      (handleRegister failRegisterValidator Outcome.exn initState =
        { state := { initState with registerErrors := objAssign initState.registerErrors (failRegisterValidator (registerPayloadOf initState)).errors },
          effects := [Effect.validatorCall FormKind.vRegister],
          thrown := false } ∧
        (handleRegister failRegisterValidator Outcome.exn initState).effects.any
          isNetworkEffect = false)) ∧
    (initState.forgotForm.newPassword = initState.forgotForm.confirmPassword ∧
      (failResetValidator (resetPayloadOf initState)).isValid = false ∧
      (handleForgotPassword failResetValidator Outcome.exn initState =
        { state := { initState with forgotErrors := objAssign initState.forgotErrors (failResetValidator (resetPayloadOf initState)).errors },
          effects := [Effect.validatorCall FormKind.vReset],
          thrown := false } ∧
        (handleForgotPassword failResetValidator Outcome.exn initState).effects.any
          isNetworkEffect = false)) :=
  ⟨⟨rfl, invalid_submit_no_network.1 failLoginValidator Outcome.exn initState rfl⟩,
   ⟨rfl, invalid_submit_no_network.2.1 failLoginValidator Outcome.exn initState rfl⟩,
   ⟨rfl, rfl,
     invalid_submit_no_network.2.2.1 failRegisterValidator Outcome.exn initState rfl rfl⟩,
   ⟨rfl, rfl,
     invalid_submit_no_network.2.2.2 failResetValidator Outcome.exn initState rfl rfl⟩⟩

/-- C10: when the password and confirm-password fields differ, the
register and forgot-password handlers toast the mismatch message and
return immediately: the state (error maps, loading flag, everything) is
unchanged, the toast is the only effect (so neither the validator nor the
auth store is invoked — the result does not depend on the validator at
all), and nothing is thrown. -/
theorem password_mismatch_early_return :
    (∀ (v : RegisterPayload → ValidationResult) (out : Outcome) (s : CompState),
        s.registerForm.password ≠ s.registerForm.confirmPassword →
        handleRegister v out s =
          { state := s, effects := [Effect.toastError "两次密码输入不一致"],
            thrown := false }) ∧
    (∀ (v : ResetPayload → ValidationResult) (out : Outcome) (s : CompState),
        s.forgotForm.newPassword ≠ s.forgotForm.confirmPassword →
        handleForgotPassword v out s =
          { state := s, effects := [Effect.toastError "两次密码输入不一致"],
            thrown := false }) := by
  constructor
  · intro v out s hne
    simp [handleRegister, hne]
  · intro v out s hne
    simp [handleForgotPassword, hne]

theorem password_mismatch_early_return_witness :
    (mismatchState.registerForm.password ≠ mismatchState.registerForm.confirmPassword ∧
      handleRegister failRegisterValidator Outcome.exn mismatchState =
        { state := mismatchState,
          effects := [Effect.toastError "两次密码输入不一致"], thrown := false }) ∧
    (mismatchState.forgotForm.newPassword ≠ mismatchState.forgotForm.confirmPassword ∧
      handleForgotPassword failResetValidator Outcome.exn mismatchState =
        { state := mismatchState,
          effects := [Effect.toastError "两次密码输入不一致"], thrown := false }) :=
  ⟨⟨by decide,
    password_mismatch_early_return.1 failRegisterValidator Outcome.exn mismatchState
      (by decide)⟩,
   ⟨by decide,
    password_mismatch_early_return.2 failResetValidator Outcome.exn mismatchState
      (by decide)⟩⟩

/-- C4 counterexample: with a passing validator, a rejection thrown by
`authStore.login` escapes `handleLogin` — its `try`/`finally` has no
`catch`, so nothing is logged, no toast is shown, and the exception
propagates out of the handler. -/
theorem exception_escapes_handler_counterexample :
    (handleLogin okLoginValidator Outcome.exn initState).thrown = true ∧
    (handleLogin okLoginValidator Outcome.exn initState).effects =
      [Effect.validatorCall FormKind.vLogin,
       Effect.authLogin (loginPayloadOf initState)] :=
  ⟨rfl, rfl⟩

/-- C4 amended: only `sendVerificationCode` catches an unexpected
exception from its awaited call, logging it and toasting a generic
message (its `finally` resets the in-flight flag); the four form submit
handlers have `try`/`finally` with no `catch`, so an exception from the
auth store resets the loading flag and then propagates out, with no log
and no toast.  (`handleWechatLogin` has a `try`/`catch`, but its awaited
body is a commented-out stub that cannot throw.) -/
theorem async_exception_handling_amended :
    (∀ (phone : String) (ctype : CodeType) (si : Nat) (s : CompState),
        phone ≠ "" →
        (sendVerificationCode phone ctype true si Outcome.exn s).thrown = false ∧
        (sendVerificationCode phone ctype true si Outcome.exn s).effects =
          [Effect.apiSendCode phone ctype,
           Effect.consoleError "Send code error:",
           Effect.toastError "发送验证码失败"] ∧
        (sendVerificationCode phone ctype true si Outcome.exn s).state.isSendingCode
          = false) ∧
    (∀ (v : LoginPayload → ValidationResult) (s : CompState),
        (v (loginPayloadOf s)).isValid = true →
        (handleLogin v Outcome.exn s).thrown = true ∧
        (handleLogin v Outcome.exn s).state.isLoading = false ∧
        (handleLogin v Outcome.exn s).effects =
          [Effect.validatorCall FormKind.vLogin,
           Effect.authLogin (loginPayloadOf s)]) ∧
    (∀ (v : LoginPayload → ValidationResult) (s : CompState),
        (v (phonePayloadOf s)).isValid = true →
        (handlePhoneCodeLogin v Outcome.exn s).thrown = true ∧
        (handlePhoneCodeLogin v Outcome.exn s).state.isLoading = false ∧
        (handlePhoneCodeLogin v Outcome.exn s).effects =
          [Effect.validatorCall FormKind.vLogin,
           Effect.authLogin (phonePayloadOf s)]) ∧
    (∀ (v : RegisterPayload → ValidationResult) (s : CompState),
        s.registerForm.password = s.registerForm.confirmPassword →
        (v (registerPayloadOf s)).isValid = true →
        (handleRegister v Outcome.exn s).thrown = true ∧
        (handleRegister v Outcome.exn s).state.isLoading = false ∧
        (handleRegister v Outcome.exn s).effects =
          [Effect.validatorCall FormKind.vRegister,
           Effect.authRegister (registerPayloadOf s)]) ∧
    (∀ (v : ResetPayload → ValidationResult) (s : CompState),
        s.forgotForm.newPassword = s.forgotForm.confirmPassword →
        (v (resetPayloadOf s)).isValid = true →
        (handleForgotPassword v Outcome.exn s).thrown = true ∧
        (handleForgotPassword v Outcome.exn s).state.isLoading = false ∧
        (handleForgotPassword v Outcome.exn s).effects =
          [Effect.validatorCall FormKind.vReset,
           Effect.authResetPassword (resetPayloadOf s)]) := by
  refine ⟨?_, ?_, ?_, ?_, ?_⟩
  · intro phone ctype si s hphone
    refine ⟨?_, ?_, ?_⟩ <;> simp [sendVerificationCode, hphone]
  · intro v s hv
    refine ⟨?_, ?_, ?_⟩ <;> simp [handleLogin, hv]
  · intro v s hv
    refine ⟨?_, ?_, ?_⟩ <;> simp [handlePhoneCodeLogin, hv]
  · intro v s hpw hv
    refine ⟨?_, ?_, ?_⟩ <;> simp [handleRegister, hpw, hv]
  · intro v s hpw hv
    refine ⟨?_, ?_, ?_⟩ <;> simp [handleForgotPassword, hpw, hv]

theorem async_exception_handling_amended_witness :
    ((("13800138000" : String) ≠ "" ∧
      ((sendVerificationCode "13800138000" CodeType.login true 60 Outcome.exn
          initState).thrown = false ∧
        (sendVerificationCode "13800138000" CodeType.login true 60 Outcome.exn
          initState).effects =
          [Effect.apiSendCode "13800138000" CodeType.login,
           Effect.consoleError "Send code error:",
           Effect.toastError "发送验证码失败"] ∧
        (sendVerificationCode "13800138000" CodeType.login true 60 Outcome.exn
          initState).state.isSendingCode = false))) ∧
    ((okLoginValidator (loginPayloadOf initState)).isValid = true ∧
      ((handleLogin okLoginValidator Outcome.exn initState).thrown = true ∧
        (handleLogin okLoginValidator Outcome.exn initState).state.isLoading = false ∧
        (handleLogin okLoginValidator Outcome.exn initState).effects =
          [Effect.validatorCall FormKind.vLogin,
           Effect.authLogin (loginPayloadOf initState)])) ∧
    (initState.registerForm.password = initState.registerForm.confirmPassword ∧
      (okRegisterValidator (registerPayloadOf initState)).isValid = true ∧
      ((handleRegister okRegisterValidator Outcome.exn initState).thrown = true ∧
        (handleRegister okRegisterValidator Outcome.exn initState).state.isLoading
          = false ∧
        (handleRegister okRegisterValidator Outcome.exn initState).effects =
          [Effect.validatorCall FormKind.vRegister,
           Effect.authRegister (registerPayloadOf initState)])) :=
  ⟨⟨by decide,
    async_exception_handling_amended.1 "13800138000" CodeType.login 60 initState
      (by decide)⟩,
   ⟨rfl, async_exception_handling_amended.2.1 okLoginValidator initState rfl⟩,
   ⟨rfl, rfl,
    async_exception_handling_amended.2.2.2.1 okRegisterValidator initState rfl rfl⟩⟩

/-- C8: the resend-code buttons' `:disabled` binding is exactly
`isSendingCode || codeCountdown > 0`, and `sendVerificationCode` itself
performs no in-flight/countdown check: its effect trace and thrown flag
are independent of `isSendingCode` and `codeCountdown`, and with a
non-empty valid phone it issues the send-code API call even from a state
where the button guard would be active. -/
theorem resend_guard_at_call_site :
    (∀ s : CompState,
        resendDisabled s = true ↔ (s.isSendingCode = true ∨ 0 < s.codeCountdown)) ∧
    (∀ (phone : String) (ctype : CodeType) (pv : Bool) (si : Nat) (out : Outcome)
        (s : CompState) (b : Bool) (n : Nat),
        (sendVerificationCode phone ctype pv si out
            { s with isSendingCode := b, codeCountdown := n }).effects =
          (sendVerificationCode phone ctype pv si out s).effects ∧
        (sendVerificationCode phone ctype pv si out
            { s with isSendingCode := b, codeCountdown := n }).thrown =
          (sendVerificationCode phone ctype pv si out s).thrown) ∧
    (∀ (phone : String) (ctype : CodeType) (si : Nat) (out : Outcome) (s : CompState),
        phone ≠ "" →
        Effect.apiSendCode phone ctype ∈
          (sendVerificationCode phone ctype true si out s).effects) := by
  refine ⟨?_, ?_, ?_⟩
  · intro s
    simp [resendDisabled]
  · intro phone ctype pv si out s b n
    by_cases hp : phone = ""
    · simp [sendVerificationCode, hp]
    · cases pv
      · simp [sendVerificationCode, hp]
      · cases out with
        | ok succ msg => cases succ <;> simp [sendVerificationCode, hp]
        | exn => simp [sendVerificationCode, hp]
  · intro phone ctype si out s hphone
    cases out with
    | ok succ msg => cases succ <;> simp [sendVerificationCode, hphone]
    | exn => simp [sendVerificationCode, hphone]

theorem resend_guard_at_call_site_witness :
    (("13800138000" : String) ≠ "" ∧
      Effect.apiSendCode "13800138000" CodeType.login ∈
        (sendVerificationCode "13800138000" CodeType.login true 60
          (Outcome.ok true none)
          { initState with isSendingCode := true, codeCountdown := 30 }).effects) :=
  ⟨by decide,
   resend_guard_at_call_site.2.2 "13800138000" CodeType.login 60 (Outcome.ok true none)
     { initState with isSendingCode := true, codeCountdown := 30 } (by decide)⟩

end LoginPage
